import Mathlib

/-!
Verification of the budget-inflation core (src/main.rs) against its
natural-language specification.

Shallow embedding conventions:
* Rust f64 arithmetic is embedded as exact arithmetic: the stochastic path
  simulator and the ensemble aggregator use ℚ (they only add, multiply,
  divide, take max and sort, so they stay executable), while the savings
  solver uses ℝ because it takes a 12th root (Rust powf, embedded as
  Real.rpow).
* The random draws of rand_distr Normal are abstracted as an explicit
  shock stream `shocks : ℕ → ℚ` (one stream per simulation run for the
  aggregator); the simulator consumes one draw per loop iteration, the
  value drawn at the iteration that produces path entry t being
  `shocks t`.
* Rust vector indexing `v[i]` is embedded as `List.getD v i 0`; every
  index the code uses is proved (or assumed via the claim's
  preconditions) to be in range, where the two coincide.
-/

/-- Embedding of the loop body of simulate_inflation (src/main.rs lines
18-20): from the previous rate and the sampled shock, compute
`(prev + drift + shock).max(0.0)` with
`drift = mean_reversion * (long_term_mean - prev)`. -/
def rate_step (mean_reversion long_term_mean prev shock : ℚ) : ℚ :=
  max (prev + mean_reversion * (long_term_mean - prev) + shock) 0

/-- Embedding of the `for _ in 1..years` loop of simulate_inflation:
`k` iterations remain, `t` is the index of the next entry to be pushed,
`prev` is the last rate pushed so far. -/
def simAux (mean_reversion long_term_mean : ℚ) (shocks : ℕ → ℚ) :
    ℕ → ℕ → ℚ → List ℚ
  | 0, _, _ => []
  | k + 1, t, prev =>
      let new_rate := rate_step mean_reversion long_term_mean prev (shocks t)
      new_rate :: simAux mean_reversion long_term_mean shocks k (t + 1) new_rate

/-- Embedding of simulate_inflation (src/main.rs lines 6-24).  The vector
starts as `vec![start_rate]` and the loop `for _ in 1..years` runs
`years - 1` times (natural subtraction: zero times when years = 0).
`volatility` only parameterises the normal distribution whose draws are
abstracted into `shocks`, so it is carried but unused. -/
def simulate_inflation (years : ℕ)
    (start_rate volatility mean_reversion long_term_mean : ℚ)
    (shocks : ℕ → ℚ) : List ℚ :=
  start_rate :: simAux mean_reversion long_term_mean shocks (years - 1) 1 start_rate

/-- The mathematical form of the simulated path: entry 0 is the start
rate and entry t+1 applies `rate_step` to entry t with the draw
`shocks (t+1)`. Used to reason about `simulate_inflation`. -/
def idealPath (start_rate mean_reversion long_term_mean : ℚ)
    (shocks : ℕ → ℚ) : ℕ → ℚ
  | 0 => start_rate
  | t + 1 =>
      rate_step mean_reversion long_term_mean
        (idealPath start_rate mean_reversion long_term_mean shocks t)
        (shocks (t + 1))

lemma simAux_eq_map_range (mean_reversion long_term_mean : ℚ)
    (shocks : ℕ → ℚ) (start_rate : ℚ) :
    ∀ (k t : ℕ),
      simAux mean_reversion long_term_mean shocks k (t + 1)
        (idealPath start_rate mean_reversion long_term_mean shocks t) =
      (List.range k).map
        (fun j => idealPath start_rate mean_reversion long_term_mean shocks (t + 1 + j)) := by
  intro k
  induction k with
  | zero => intro t; simp [simAux]
  | succ k ih =>
      intro t
      have hstep :
          rate_step mean_reversion long_term_mean
            (idealPath start_rate mean_reversion long_term_mean shocks t)
            (shocks (t + 1)) =
          idealPath start_rate mean_reversion long_term_mean shocks (t + 1) := rfl
      simp only [simAux, hstep, ih (t + 1), List.range_succ_eq_map, List.map_cons,
        List.map_map, Nat.add_zero]
      congr 1
      apply List.map_congr_left
      intro j _
      simp only [Function.comp_apply, Nat.succ_eq_add_one]
      congr 1
      omega

/-- `simulate_inflation` produces exactly the first `max years 1` entries
of the ideal recurrence. -/
lemma simulate_inflation_eq (years : ℕ)
    (start_rate volatility mean_reversion long_term_mean : ℚ)
    (shocks : ℕ → ℚ) :
    simulate_inflation years start_rate volatility mean_reversion long_term_mean shocks =
      (List.range (max years 1)).map
        (idealPath start_rate mean_reversion long_term_mean shocks) := by
  have h0 : idealPath start_rate mean_reversion long_term_mean shocks 0 = start_rate := rfl
  have hm : max years 1 = (years - 1) + 1 := by omega
  rw [simulate_inflation, hm, List.range_succ_eq_map, List.map_cons, h0]
  have := simAux_eq_map_range mean_reversion long_term_mean shocks start_rate (years - 1) 0
  rw [h0] at this
  rw [this, List.map_map]
  congr 1
  apply List.map_congr_left
  intro j _
  simp only [Function.comp_apply, Nat.succ_eq_add_one]
  congr 1
  omega

lemma simulate_inflation_length (years : ℕ)
    (start_rate volatility mean_reversion long_term_mean : ℚ)
    (shocks : ℕ → ℚ) :
    (simulate_inflation years start_rate volatility mean_reversion long_term_mean
      shocks).length = max years 1 := by
  rw [simulate_inflation_eq]; simp

lemma simulate_inflation_getD (years : ℕ)
    (start_rate volatility mean_reversion long_term_mean : ℚ)
    (shocks : ℕ → ℚ) (t : ℕ) (ht : t < max years 1) :
    (simulate_inflation years start_rate volatility mean_reversion long_term_mean
      shocks).getD t 0 =
      idealPath start_rate mean_reversion long_term_mean shocks t := by
  rw [simulate_inflation_eq]
  have hlen : t < ((List.range (max years 1)).map
      (idealPath start_rate mean_reversion long_term_mean shocks)).length := by
    simpa using ht
  rw [List.getD_eq_getElem _ _ hlen, List.getElem_map, List.getElem_range]

/-- C2 counterexample: the claim asserts element 0 of the simulated path
is nonnegative even when startRate < 0, but simulate_inflation stores
start_rate unclamped: with years = 1 and startRate = -1 the path is
[-1], whose element 0 is negative. -/
theorem simulate_start_not_clamped_cex :
    simulate_inflation 1 (-1) 0 0 0 (fun _ => 0) = [-1] ∧
      ¬ (0 : ℚ) ≤ (simulate_inflation 1 (-1) 0 0 0 (fun _ => 0)).getD 0 0 := by
  constructor
  · decide
  · decide

/-- C2 (amended): for years ≥ 1, simulate_inflation returns exactly
years elements; element 0 equals startRate (stored unclamped, so it may
be negative), and every element at index ≥ 1 is nonnegative thanks to
the max(·, 0) floor. -/
theorem simulate_shape_and_nonneg_tail (years : ℕ)
    (s v mr ltm : ℚ) (sh : ℕ → ℚ) (h : 1 ≤ years) :
    (simulate_inflation years s v mr ltm sh).length = years ∧
    (simulate_inflation years s v mr ltm sh).getD 0 0 = s ∧
    ∀ i, 1 ≤ i → i < years →
      0 ≤ (simulate_inflation years s v mr ltm sh).getD i 0 := by
  have hmax : max years 1 = years := by omega
  refine ⟨?_, ?_, ?_⟩
  · rw [simulate_inflation_length, hmax]
  · rw [simulate_inflation_getD years s v mr ltm sh 0 (by omega)]
    rfl
  · intro i hi1 hi2
    rw [simulate_inflation_getD years s v mr ltm sh i (by omega)]
    obtain ⟨j, rfl⟩ : ∃ j, i = j + 1 := ⟨i - 1, by omega⟩
    exact le_max_right _ _

/-- C2 witness: the amended shape/nonnegativity statement instantiated
at years = 2, startRate = -1, with constant negative shocks. -/
theorem simulate_shape_and_nonneg_tail_witness :
    (1 : ℕ) ≤ 2 ∧
      ((simulate_inflation 2 (-1) 0 0 0 (fun _ => -7)).length = 2 ∧
       (simulate_inflation 2 (-1) 0 0 0 (fun _ => -7)).getD 0 0 = -1 ∧
       ∀ i, 1 ≤ i → i < 2 →
         0 ≤ (simulate_inflation 2 (-1) 0 0 0 (fun _ => -7)).getD i 0) :=
  ⟨by decide, simulate_shape_and_nonneg_tail 2 (-1) 0 0 0 (fun _ => -7) (by decide)⟩

/-- C6 counterexample: the claim asserts simulate with years = 0 returns
an empty path, but simulate_inflation starts from vec![start_rate], so
with years = 0 it returns the one-element list [startRate], not []. -/
theorem simulate_years_zero_not_empty_cex :
    simulate_inflation 0 (2/100) (5/1000) (3/10) (2/100) (fun _ => 0) ≠ [] := by
  decide

/-- C6 (amended): simulate_inflation with years = 0 returns the
single-element path [startRate] (the loop for 1..0 never runs but the
vector already holds start_rate), and with years = 1 it returns
[startRate] as the claim states. -/
theorem simulate_years_zero_one_singleton (s v mr ltm : ℚ) (sh : ℕ → ℚ) :
    simulate_inflation 0 s v mr ltm sh = [s] ∧
      simulate_inflation 1 s v mr ltm sh = [s] := by
  constructor <;> simp [simulate_inflation, simAux]

/-- C7: for years ≥ 1, the simulated path satisfies path[0] = startRate
and, for 1 ≤ t < years,
path[t] = max(0, path[t-1] + meanReversionSpeed * (longTermMean - path[t-1]) + shock[t]),
where shock[t] is the draw consumed by the iteration producing entry t. -/
theorem simulate_recurrence (years : ℕ)
    (s v mr ltm : ℚ) (sh : ℕ → ℚ) (h : 1 ≤ years) :
    (simulate_inflation years s v mr ltm sh).getD 0 0 = s ∧
    ∀ t, 1 ≤ t → t < years →
      (simulate_inflation years s v mr ltm sh).getD t 0 =
        max 0 ((simulate_inflation years s v mr ltm sh).getD (t - 1) 0
          + mr * (ltm - (simulate_inflation years s v mr ltm sh).getD (t - 1) 0)
          + sh t) := by
  constructor
  · rw [simulate_inflation_getD years s v mr ltm sh 0 (by omega)]
    rfl
  · intro t ht1 ht2
    rw [simulate_inflation_getD years s v mr ltm sh t (by omega),
      simulate_inflation_getD years s v mr ltm sh (t - 1) (by omega)]
    obtain ⟨j, rfl⟩ : ∃ j, t = j + 1 := ⟨t - 1, by omega⟩
    simp only [Nat.add_sub_cancel]
    rw [idealPath, rate_step, max_comm]

/-- C7 witness: the recurrence instantiated at years = 2 with a shock
large and negative enough that the max(0, ·) floor binds. -/
theorem simulate_recurrence_witness :
    (1 : ℕ) ≤ 2 ∧
      ((simulate_inflation 2 5 0 1 3 (fun _ => -100)).getD 0 0 = 5 ∧
       ∀ t, 1 ≤ t → t < 2 →
         (simulate_inflation 2 5 0 1 3 (fun _ => -100)).getD t 0 =
           max 0 ((simulate_inflation 2 5 0 1 3 (fun _ => -100)).getD (t - 1) 0
             + 1 * (3 - (simulate_inflation 2 5 0 1 3 (fun _ => -100)).getD (t - 1) 0)
             + (fun _ : ℕ => (-100 : ℚ)) t)) :=
  ⟨by decide, simulate_recurrence 2 5 0 1 3 (fun _ => -100) (by decide)⟩

/-- Embedding of the deflation loop of calculate_monthly_savings
(src/main.rs lines 68-71): iterate the inflation path in reverse and
divide the running goal by (1 + rate) at each step. -/
noncomputable def deflate (goal : ℝ) (inflation_rates : List ℝ) : ℝ :=
  inflation_rates.reverse.foldl (fun g rate => g / (1 + rate)) goal

/-- Embedding of calculate_monthly_savings (src/main.rs lines 62-77).
`powf(1.0/12.0)` is embedded as Real.rpow and `powi(months)` as the
monoid power with natural exponent `months = years * 12`.  Real division
by zero yields 0 in this embedding (where Rust f64 would yield NaN or
an infinity); the claims touching that case account for it. -/
noncomputable def calculate_monthly_savings (goal : ℝ) (years : ℕ)
    (inflation_rates : List ℝ) (annual_return : ℝ) : ℝ :=
  let future_goal := deflate goal inflation_rates
  let monthly_return := (1 + annual_return) ^ ((1 : ℝ) / 12) - 1
  let months := years * 12
  (future_goal * monthly_return) / ((1 + monthly_return) ^ months - 1)

lemma foldl_div_one_add (l : List ℝ) :
    ∀ g : ℝ, l.foldl (fun g rate => g / (1 + rate)) g =
      g / (l.map (fun rate => 1 + rate)).prod := by
  induction l with
  | nil => intro g; simp
  | cons r l ih =>
      intro g
      simp only [List.foldl_cons, List.map_cons, List.prod_cons, ih (g / (1 + r))]
      rw [div_div]

/-- The deflation loop divides the goal by the product of all (1 + rate)
factors of the path. -/
lemma deflate_eq_div_prod (goal : ℝ) (inflation_rates : List ℝ) :
    deflate goal inflation_rates =
      goal / (inflation_rates.map (fun rate => 1 + rate)).prod := by
  rw [deflate, foldl_div_one_add, List.map_reverse, List.prod_reverse]

lemma deflate_mul (c goal : ℝ) (inflation_rates : List ℝ) :
    deflate (c * goal) inflation_rates = c * deflate goal inflation_rates := by
  rw [deflate_eq_div_prod, deflate_eq_div_prod, mul_div_assoc]

/-- C3: the deflation step of calculate_monthly_savings processes the
inflation path in reverse chronological order — the last (latest-year)
rate of the path is divided out first — and on inflationPath =
[0.10, 0.0] with goal = 1000 the present value it returns is
1000 / 1.0 / 1.10. -/
theorem deflate_reverse_order :
    (∀ (g r : ℝ) (p : List ℝ),
        deflate g (p ++ [r]) = deflate (g / (1 + r)) p) ∧
      deflate 1000 [(1 : ℝ)/10, 0] = 1000 / (1 + 0) / (1 + 1/10) := by
  constructor
  · intro g r p
    simp [deflate, List.reverse_append]
  · norm_num [deflate]

/-- C8: calculate_monthly_savings is scale-linear in the goal — doubling
the goal doubles the computed monthly payment, for every years, path and
annual return (the deflation is linear in the goal and the annuity
factor does not depend on it). -/
theorem calculate_monthly_savings_scale_linear (goal : ℝ) (years : ℕ)
    (inflation_rates : List ℝ) (annual_return : ℝ) :
    calculate_monthly_savings (2 * goal) years inflation_rates annual_return =
      2 * calculate_monthly_savings goal years inflation_rates annual_return := by
  simp only [calculate_monthly_savings]
  rw [deflate_mul, mul_assoc, mul_div_assoc]

/-- C9: calculate_monthly_savings is invariant under permutation of the
inflation path: the deflation loop divides the goal by the product of
all (1 + rate) factors, and that product does not depend on the order
of the rates. -/
theorem calculate_monthly_savings_perm_invariant (goal : ℝ) (years : ℕ)
    (annual_return : ℝ) (p₁ p₂ : List ℝ) (hperm : p₁.Perm p₂) :
    calculate_monthly_savings goal years p₁ annual_return =
      calculate_monthly_savings goal years p₂ annual_return := by
  unfold calculate_monthly_savings
  rw [deflate_eq_div_prod, deflate_eq_div_prod,
    (hperm.map (fun rate => 1 + rate)).prod_eq]

/-- C9 witness: permutation invariance applied to the two orderings of
the path [1, 2]. -/
theorem calculate_monthly_savings_perm_invariant_witness :
    ([(1 : ℝ), 2].Perm [2, 1]) ∧
      calculate_monthly_savings 5 2 [(1 : ℝ), 2] 0 =
        calculate_monthly_savings 5 2 [(2 : ℝ), 1] 0 :=
  ⟨List.Perm.swap 2 1 [],
    calculate_monthly_savings_perm_invariant 5 2 0 [1, 2] [2, 1]
      (List.Perm.swap 2 1 [])⟩

/-- C1: calculate_monthly_savings has no special case for
annual_return = 0.  There the monthly return is 1^(1/12) - 1 = 0, the
annuity denominator (1 + 0)^months - 1 is 0, and the code divides by
zero: at goal = 12000, years = 1, path = [0] the embedding yields 0
(Rust f64 yields NaN), not the equal-installment value
deflatedGoal / months = 1000 the claim requires. -/
theorem calculate_monthly_savings_zero_return_div_zero :
    calculate_monthly_savings 12000 1 [(0 : ℝ)] 0 = 0 ∧
      deflate 12000 [(0 : ℝ)] / (((1 : ℕ) * 12 : ℕ) : ℝ) = 1000 ∧
      (1000 : ℝ) ≠ 0 := by
  refine ⟨?_, ?_, by norm_num⟩
  · simp only [calculate_monthly_savings]
    rw [add_zero, Real.one_rpow]
    norm_num
  · norm_num [deflate]

/-- C5 counterexample: the claim asserts the core signals an
InvalidParameter error whenever annualReturn ≤ -1, but
calculate_monthly_savings performs no validation at all: at the invalid
annual_return = -1 it returns the ordinary finite number 1000 (the
monthly return degenerates to -1 and the annuity denominator to -1). -/
theorem calculate_monthly_savings_no_validation_cex :
    calculate_monthly_savings 1000 1 [(0 : ℝ)] (-1) = 1000 := by
  have h0 : ((1 : ℝ) + (-1)) = 0 := by norm_num
  simp only [calculate_monthly_savings, h0,
    Real.zero_rpow (by norm_num : ((1 : ℝ)/12) ≠ 0)]
  norm_num [deflate]

/-- C5 (amended): the core performs no boundary validation: invalid
inputs flow straight through the arithmetic.  At the invalid
goal = -4095 (goal ≤ 0) with annual_return = 4095 (monthly return
exactly 1), calculate_monthly_savings returns the ordinary value -1
instead of signalling an error. -/
theorem calculate_monthly_savings_invalid_goal_value :
    calculate_monthly_savings (-4095) 1 [(0 : ℝ)] 4095 = -1 := by
  have h0 : ((1 : ℝ) + 4095) ^ ((1 : ℝ) / 12) = 2 := by
    have h1 : ((1 : ℝ) + 4095) = (2 : ℝ) ^ (12 : ℕ) := by norm_num
    rw [h1, ← Real.rpow_natCast 2 12, ← Real.rpow_mul (by norm_num)]
    norm_num
  simp only [calculate_monthly_savings, h0]
  norm_num [deflate]

/-- Embedding of run_multiple_simulations (src/main.rs lines 26-60).
Each of the num_simulations runs gets its own shock stream `shockss i`.
As in the code, for each year the per-simulation values at that index
are collected and sorted ascending (the code's sort_by with partial_cmp
is embedded as mergeSort on ℚ, where the order is total); the mean is
the sum of the (sorted) values over num_simulations, and the bounds are
the sorted values at ranks num_simulations / 10 and
num_simulations * 9 / 10 (integer division). -/
def run_multiple_simulations (num_simulations years : ℕ)
    (start_rate volatility mean_reversion long_term_mean : ℚ)
    (shockss : ℕ → ℕ → ℚ) : List ℚ × List ℚ × List ℚ :=
  let all_simulations := (List.range num_simulations).map
    (fun i => simulate_inflation years start_rate volatility mean_reversion
      long_term_mean (shockss i))
  let sorted_year_rates := fun year =>
    (all_simulations.map (fun sim => sim.getD year 0)).mergeSort
      (fun a b => decide (a ≤ b))
  let mean_rates := (List.range years).map
    (fun year => (sorted_year_rates year).sum / (num_simulations : ℚ))
  let lower_bound := (List.range years).map
    (fun year => (sorted_year_rates year).getD (num_simulations / 10) 0)
  let upper_bound := (List.range years).map
    (fun year => (sorted_year_rates year).getD (num_simulations * 9 / 10) 0)
  (mean_rates, lower_bound, upper_bound)

/-- The ensemble's values at a given year index: for each simulation i,
entry `year` of the path simulated with shock stream `shockss i`. -/
def yearValues (num_simulations years : ℕ)
    (start_rate volatility mean_reversion long_term_mean : ℚ)
    (shockss : ℕ → ℕ → ℚ) (year : ℕ) : List ℚ :=
  (List.range num_simulations).map
    (fun i => (simulate_inflation years start_rate volatility mean_reversion
      long_term_mean (shockss i)).getD year 0)

lemma getD_map_range {α : Type} (f : ℕ → α) (d : α) {n i : ℕ} (h : i < n) :
    ((List.range n).map f).getD i d = f i := by
  have hlen : i < ((List.range n).map f).length := by simpa using h
  rw [List.getD_eq_getElem _ _ hlen, List.getElem_map, List.getElem_range]

/-- The Bool-valued mergeSort used in the embedding agrees with
Mathlib's insertionSort by the ascending order on ℚ: both produce the
unique sorted permutation. -/
lemma mergeSort_eq_insertionSort (l : List ℚ) :
    l.mergeSort (fun a b => decide (a ≤ b)) = l.insertionSort (· ≤ ·) := by
  have htrans : ∀ a b c : ℚ, (decide (a ≤ b)) = true → (decide (b ≤ c)) = true →
      (decide (a ≤ c)) = true := by
    intro a b c h1 h2
    simp only [decide_eq_true_eq] at h1 h2 ⊢
    exact le_trans h1 h2
  have htotal : ∀ a b : ℚ, ((decide (a ≤ b)) || (decide (b ≤ a))) = true := by
    intro a b
    simp only [Bool.or_eq_true, decide_eq_true_eq]
    exact le_total a b
  have hsorted : (l.mergeSort (fun a b => decide (a ≤ b))).Sorted (· ≤ ·) := by
    have hp := @List.sorted_mergeSort ℚ (fun a b => decide (a ≤ b)) htrans htotal l
    exact hp.imp (fun h => of_decide_eq_true h)
  exact List.eq_of_perm_of_sorted
    ((l.mergeSort_perm _).trans (List.perm_insertionSort (· ≤ ·) l).symm)
    hsorted (List.sorted_insertionSort (· ≤ ·) l)

/-- Characterisation of the three outputs of run_multiple_simulations at
a year index in range, in terms of the per-year ensemble values. -/
lemma run_multiple_simulations_getD (num years : ℕ) (s v mr ltm : ℚ)
    (shockss : ℕ → ℕ → ℚ) (y : ℕ) (hy : y < years) :
    (run_multiple_simulations num years s v mr ltm shockss).1.getD y 0 =
        (yearValues num years s v mr ltm shockss y).sum / (num : ℚ) ∧
      (run_multiple_simulations num years s v mr ltm shockss).2.1.getD y 0 =
        ((yearValues num years s v mr ltm shockss y).insertionSort
          (· ≤ ·)).getD (num / 10) 0 ∧
      (run_multiple_simulations num years s v mr ltm shockss).2.2.getD y 0 =
        ((yearValues num years s v mr ltm shockss y).insertionSort
          (· ≤ ·)).getD (num * 9 / 10) 0 := by
  have hvals : ((List.range num).map
      (fun i => simulate_inflation years s v mr ltm (shockss i))).map
        (fun sim => sim.getD y 0) = yearValues num years s v mr ltm shockss y := by
    rw [List.map_map]; rfl
  simp only [run_multiple_simulations]
  refine ⟨?_, ?_, ?_⟩
  · rw [getD_map_range _ _ hy, hvals,
      ((yearValues num years s v mr ltm shockss y).mergeSort_perm _).sum_eq]
  · rw [getD_map_range _ _ hy, mergeSort_eq_insertionSort, hvals]
  · rw [getD_map_range _ _ hy, mergeSort_eq_insertionSort, hvals]

/-- C4: for numSimulations ≥ 1 and a year index y < years, the mean
output of run_multiple_simulations is the arithmetic mean of the
numSimulations values at index y, and the lower/upper bounds are the
values of that sample sorted ascending at the 0-indexed ranks
floor(numSimulations / 10) and floor(numSimulations * 9 / 10), with no
interpolation. -/
theorem run_multiple_simulations_summary (num years : ℕ) (s v mr ltm : ℚ)
    (shockss : ℕ → ℕ → ℚ) (y : ℕ) (hn : 1 ≤ num) (hy : y < years) :
    (run_multiple_simulations num years s v mr ltm shockss).1.getD y 0 =
        (yearValues num years s v mr ltm shockss y).sum / (num : ℚ) ∧
      (run_multiple_simulations num years s v mr ltm shockss).2.1.getD y 0 =
        ((yearValues num years s v mr ltm shockss y).insertionSort
          (· ≤ ·)).getD (num / 10) 0 ∧
      (run_multiple_simulations num years s v mr ltm shockss).2.2.getD y 0 =
        ((yearValues num years s v mr ltm shockss y).insertionSort
          (· ≤ ·)).getD (num * 9 / 10) 0 :=
  run_multiple_simulations_getD num years s v mr ltm shockss y hy

/-- C4 witness: the summary characterisation instantiated at
numSimulations = 3, years = 2, year index 1, with shock stream i
constantly equal to i. -/
theorem run_multiple_simulations_summary_witness :
    ((1 : ℕ) ≤ 3 ∧ (1 : ℕ) < 2) ∧
      ((run_multiple_simulations 3 2 0 0 1 0 (fun i _ => (i : ℚ))).1.getD 1 0 =
          (yearValues 3 2 0 0 1 0 (fun i _ => (i : ℚ)) 1).sum / ((3 : ℕ) : ℚ) ∧
        (run_multiple_simulations 3 2 0 0 1 0 (fun i _ => (i : ℚ))).2.1.getD 1 0 =
          ((yearValues 3 2 0 0 1 0 (fun i _ => (i : ℚ)) 1).insertionSort
            (· ≤ ·)).getD (3 / 10) 0 ∧
        (run_multiple_simulations 3 2 0 0 1 0 (fun i _ => (i : ℚ))).2.2.getD 1 0 =
          ((yearValues 3 2 0 0 1 0 (fun i _ => (i : ℚ)) 1).insertionSort
            (· ≤ ·)).getD (3 * 9 / 10) 0) :=
  ⟨⟨by decide, by decide⟩,
    run_multiple_simulations_summary 3 2 0 0 1 0 (fun i _ => (i : ℚ)) 1
      (by decide) (by decide)⟩

lemma sorted_getD_mono (l : List ℚ) (hs : l.Sorted (· ≤ ·)) {i j : ℕ}
    (hij : i ≤ j) (hj : j < l.length) : l.getD i 0 ≤ l.getD j 0 := by
  have hi : i < l.length := lt_of_le_of_lt hij hj
  rw [List.getD_eq_getElem _ _ hi, List.getD_eq_getElem _ _ hj]
  have h := hs.rel_get_of_le
    (a := (⟨i, hi⟩ : Fin l.length)) (b := (⟨j, hj⟩ : Fin l.length)) hij
  simpa using h

lemma yearValues_length (num years : ℕ) (s v mr ltm : ℚ)
    (shockss : ℕ → ℕ → ℚ) (y : ℕ) :
    (yearValues num years s v mr ltm shockss y).length = num := by
  simp [yearValues]

/-- C10: for numSimulations ≥ 1 and any year index y < years, the bands
returned by run_multiple_simulations satisfy
lowerBound[y] ≤ upperBound[y]: both are ranks of the same
ascending-sorted per-year sample, at indices
numSimulations / 10 ≤ numSimulations * 9 / 10 < numSimulations. -/
theorem run_multiple_simulations_bounds_ordered (num years : ℕ)
    (s v mr ltm : ℚ) (shockss : ℕ → ℕ → ℚ) (y : ℕ)
    (hn : 1 ≤ num) (hy : y < years) :
    (run_multiple_simulations num years s v mr ltm shockss).2.1.getD y 0 ≤
      (run_multiple_simulations num years s v mr ltm shockss).2.2.getD y 0 := by
  obtain ⟨-, hlow, hup⟩ :=
    run_multiple_simulations_getD num years s v mr ltm shockss y hy
  rw [hlow, hup]
  have hlen : ((yearValues num years s v mr ltm shockss y).insertionSort
      (· ≤ ·)).length = num := by
    rw [List.length_insertionSort, yearValues_length]
  apply sorted_getD_mono _
    (List.sorted_insertionSort (· ≤ ·) (yearValues num years s v mr ltm shockss y))
  · omega
  · omega

/-- C10 witness: the band ordering instantiated at numSimulations = 3,
years = 2, year index 1, with shock stream i constantly equal to -i. -/
theorem run_multiple_simulations_bounds_ordered_witness :
    ((1 : ℕ) ≤ 3 ∧ (1 : ℕ) < 2) ∧
      ((run_multiple_simulations 3 2 0 0 1 0 (fun i _ => -(i : ℚ))).2.1.getD 1 0 ≤
        (run_multiple_simulations 3 2 0 0 1 0 (fun i _ => -(i : ℚ))).2.2.getD 1 0) :=
  ⟨⟨by decide, by decide⟩,
    run_multiple_simulations_bounds_ordered 3 2 0 0 1 0 (fun i _ => -(i : ℚ)) 1
      (by decide) (by decide)⟩
